import Mathlib

/-!
Verification of `subiquity/server/apt.py` (`AptConfigurer` and
`DryRunAptConfigurer`).

The Python class is shallowly embedded as explicit state passing:

* `AptState` mirrors the instance attributes `source`, `configured`,
  `_mounts` and `_tdirs`.
* Every externally visible action (running a command through
  `app.command_runner.run`, `run_curtin_command`, `arun_command`, and the
  filesystem calls `tempfile.mkdtemp`, `os.mkdir`, `os.rename`, `os.unlink`,
  `os.rmdir`, `shutil.rmtree`, `write_file`,
  `app.note_data_for_apport`) is recorded as an `Event` in an
  append-only trace.
* The environment `Env` supplies the oracles the code consults:
  `app.base_model.network.has_network`, `lsb_release()['codename']`,
  `yaml.dump` of the mirror config, the timestamp header, `app.root`,
  success/failure of external commands, `os.path.exists` / `os.path.isdir`
  answers, and the fresh directory names returned by `tempfile.mkdtemp`
  (indexed by how many temp dirs the session has allocated so far).
* A Python exception raised by a failed external command is modelled by the
  `Outcome.err` constructor; it carries the state and trace at the moment of
  failure, because the Python object's attributes survive the exception.
-/

/-- One externally visible action performed by the configurer. -/
inductive Event where
  | runCmd (argv : List String)
  | curtinCmd (args : List String) (config : Option String)
  | arunCmd (argv : List String)
  | mkdtemp (path : String)
  | mkdir (path : String)
  | rename (src dst : String)
  | unlink (path : String)
  | rmdir (path : String)
  | rmtree (path : String)
  | writeFile (path content : String)
  | apport (label path : String)
  deriving DecidableEq, Repr

/-- The mutable attributes of an `AptConfigurer` instance:
`self.source`, `self.configured`, `self._mounts`, `self._tdirs`. -/
structure AptState where
  source : String
  configured : Option String
  mounts : List String
  tdirs : List String
  deriving DecidableEq, Repr

/-- Failure of an external operation (a raised exception in the Python). -/
inductive Err where
  | cmdFailed (argv : List String)
  | curtinFailed (args : List String)
  deriving DecidableEq, Repr

/-- Result of running a method: either a value with the updated state and the
extended trace, or a propagated failure, also with the state and trace at the
moment the exception was raised. -/
inductive Outcome (α : Type) where
  | ok (a : α) (s : AptState) (tr : List Event)
  | err (e : Err) (s : AptState) (tr : List Event)
  deriving Repr

/-- Sequencing: on failure the error propagates (the exception aborts the
rest of the method). -/
def Outcome.bind {α β : Type} (o : Outcome α)
    (f : α → AptState → List Event → Outcome β) : Outcome β :=
  match o with
  | .ok a s tr => f a s tr
  | .err e s tr => .err e s tr

/-- The state carried by an outcome, successful or not. -/
def Outcome.state {α : Type} : Outcome α → AptState
  | .ok _ s _ => s
  | .err _ s _ => s

/-- The external world as the configurer sees it. -/
structure Env where
  hasNetwork : Bool
  codename : String
  mirrorYaml : String
  datestr : String
  appRoot : String
  runnerOk : List String → Bool
  curtinOk : List String → Option String → Bool
  pathExists : String → Bool
  isDir : String → Bool
  freshDir : Nat → String

/-- Model of `self.tdir()`: `tempfile.mkdtemp()` followed by `self._tdirs.append(d)`.
The fresh name is supplied by the environment, indexed by the number of
temp directories already allocated by this session. -/
def tdir (env : Env) (s : AptState) (tr : List Event) :
    String × AptState × List Event :=
  let d := env.freshDir s.tdirs.length
  (d, { s with tdirs := s.tdirs ++ [d] }, tr ++ [.mkdtemp d])

/-- Model of `await self.app.command_runner.run(argv)`: records the invocation and
fails when the runner reports failure. -/
def runCmd (env : Env) (argv : List String) (s : AptState)
    (tr : List Event) : Outcome Unit :=
  if env.runnerOk argv then .ok () s (tr ++ [.runCmd argv])
  else .err (.cmdFailed argv) s (tr ++ [.runCmd argv])

/-- Model of `await run_curtin_command(self.app, context, *args, config=...)`. -/
def curtin (env : Env) (args : List String) (config : Option String)
    (s : AptState) (tr : List Event) : Outcome Unit :=
  if env.curtinOk args config then .ok () s (tr ++ [.curtinCmd args config])
  else .err (.curtinFailed args) s (tr ++ [.curtinCmd args config])

/-- Model of `await arun_command(argv, check=True)` (used by the dry-run variant). -/
def arun (env : Env) (argv : List String) (s : AptState)
    (tr : List Event) : Outcome Unit :=
  if env.runnerOk argv then .ok () s (tr ++ [.arunCmd argv])
  else .err (.cmdFailed argv) s (tr ++ [.arunCmd argv])

/-- The argv built by `AptConfigurer.mount`:
`['mount'] + opts + [device, mountpoint]` where `opts` collects
`['-o', options]` then `['-t', type]` when present. -/
def mountArgv (options type : Option String) (device mountpoint : String) :
    List String :=
  ["mount"]
    ++ (match options with | some o => ["-o", o] | none => [])
    ++ (match type with | some t => ["-t", t] | none => [])
    ++ [device, mountpoint]

/-- Model of `AptConfigurer.mount`: run the external mount command, then
`self._mounts.append(mountpoint)`.  The append happens only after the
command runner returns successfully; a failure propagates. -/
def mount (env : Env) (device mountpoint : String)
    (options type : Option String) (s : AptState) (tr : List Event) :
    Outcome Unit :=
  let argv := mountArgv options type device mountpoint
  if env.runnerOk argv then
    .ok () { s with mounts := s.mounts ++ [mountpoint] } (tr ++ [.runCmd argv])
  else
    .err (.cmdFailed argv) s (tr ++ [.runCmd argv])

/-- Model of `AptConfigurer.unmount`, that is `await self.app.command_runner.run(['umount', mountpoint])`.
It never touches `self._mounts`. -/
def unmount (env : Env) (mountpoint : String) (s : AptState)
    (tr : List Event) : Outcome Unit :=
  runCmd env ["umount", mountpoint] s tr

/-- The trace entry of a successful or attempted external unmount. -/
def umountEvent (mountpoint : String) : Event :=
  .runCmd ["umount", mountpoint]

/-- C3: `mount` appends `mountpoint` to the tracked mounts list exactly when
the external mount operation succeeds; on failure the mounts list (indeed the
whole state) is unchanged and the failure propagates to the caller as an
error outcome. -/
theorem mount_appends_only_on_success (env : Env) (device mountpoint : String)
    (options type : Option String) (s : AptState) (tr : List Event) :
    (env.runnerOk (mountArgv options type device mountpoint) = true ∧
      mount env device mountpoint options type s tr =
        .ok () { s with mounts := s.mounts ++ [mountpoint] }
          (tr ++ [.runCmd (mountArgv options type device mountpoint)]))
    ∨ (env.runnerOk (mountArgv options type device mountpoint) = false ∧
      mount env device mountpoint options type s tr =
        .err (.cmdFailed (mountArgv options type device mountpoint)) s
          (tr ++ [.runCmd (mountArgv options type device mountpoint)])) := by
  unfold mount
  cases h : env.runnerOk (mountArgv options type device mountpoint) <;>
    simp [h]

/-- The path `f'{for_install}/etc/apt/sources.list'`. -/
def sourcesList (root : String) : String := root ++ "/etc/apt/sources.list"

/-- The path `f'{for_install}/etc/apt/sources.list.d/original.list'`. -/
def originalList (root : String) : String :=
  root ++ "/etc/apt/sources.list.d/original.list"

/-- The path `f'{for_install}/etc/apt/apt.conf.d/90curtin-aptproxy'`. -/
def proxyPath (root : String) : String :=
  root ++ "/etc/apt/apt.conf.d/90curtin-aptproxy"

/-- The line `configure` writes to `etc/apt/sources.list`:
`f'deb [check-date=no] file:///cdrom {codename} main restricted\n'`. -/
def mediaSourceLine (codename : String) : String :=
  "deb [check-date=no] file:///cdrom " ++ codename ++ " main restricted\n"

/-- The argv of the overlay mount issued by `setup_overlay`:
`mount -o lowerdir=...,upperdir=...,workdir=... -t overlay overlay target`. -/
def overlayArgv (lower upper work target : String) : List String :=
  mountArgv
    (some ("lowerdir=" ++ lower ++ ",upperdir=" ++ upper ++ ",workdir=" ++ work))
    (some ("overlay")) ("overlay") target

/-- Model of `AptConfigurer.setup_overlay(source, target)`: allocate a tracked scratch
directory, create its `work` and `upper` subdirectories, mount an overlay at
`target` with `lowerdir=source`, and return the upper layer path. -/
def setup_overlay (env : Env) (source target : String) (s : AptState)
    (tr : List Event) : Outcome String :=
  match tdir env s tr with
  | (td, s1, tr1) =>
    let w := td ++ "/work"
    let u := td ++ "/upper"
    let tr2 := tr1 ++ [.mkdir w, .mkdir u]
    Outcome.bind
      (mount env ("overlay") target
        (some ("lowerdir=" ++ source ++ ",upperdir=" ++ u ++ ",workdir=" ++ w))
        (some ("overlay")) s1 tr2)
      (fun _ s2 tr3 => .ok u s2 tr3)

/-- The path `os.path.join(self.app.root, 'var/log/installer/subiquity-curtin-apt.conf')`
(with `app.root` not ending in a slash). -/
def configLocation (env : Env) : String :=
  env.appRoot ++ "/var/log/installer/subiquity-curtin-apt.conf"

/-- The curtin invocation `in-target -t root -- apt-get update`. -/
def aptUpdateEvent (root : String) : Event :=
  .curtinCmd ["in-target", "-t", root, "--", "apt-get", "update"] none

/-- Model of `AptConfigurer.configure(context)`: two-stage overlay build.  Stage 1
builds the `configured` overlay over `self.source` and applies the curtin
apt config to it; stage 2 builds the `for_install` overlay over
`config_upper + ':' + self.source`, bind-mounts `/cdrom` into it, branches on
network availability, writes the cdrom source line and runs `apt-get update`
in the new overlay, returning `for_install`. -/
def configure (env : Env) (s : AptState) (tr : List Event) :
    Outcome String :=
  match tdir env s tr with
  | (cfgd, s1, tr1) =>
    let s1 := { s1 with configured := some cfgd }
    Outcome.bind (setup_overlay env s1.source cfgd s1 tr1)
      (fun config_upper s2 tr2 =>
        let tr3 := tr2 ++
          [.writeFile (configLocation env) (env.datestr ++ env.mirrorYaml),
           .apport ("CurtinAptConfig") (configLocation env)]
        Outcome.bind
          (curtin env ["apt-config", "-t", cfgd] (some (configLocation env))
            s2 tr3)
          (fun _ s3 tr4 =>
            match tdir env s3 tr4 with
            | (for_install, s4, tr5) =>
              Outcome.bind
                (setup_overlay env (config_upper ++ ":" ++ s4.source)
                  for_install s4 tr5)
                (fun _ s5 tr6 =>
                  let tr7 := tr6 ++ [.mkdir (for_install ++ "/cdrom")]
                  Outcome.bind
                    (mount env ("/cdrom") (for_install ++ "/cdrom")
                      (some ("bind")) none s5 tr7)
                    (fun _ s6 tr8 =>
                      let tr9 :=
                        if env.hasNetwork then
                          tr8 ++ [.rename (sourcesList for_install)
                                    (originalList for_install)]
                        else
                          if env.pathExists (proxyPath for_install) then
                            tr8 ++ [.unlink (proxyPath for_install)]
                          else tr8
                      let tr10 := tr9 ++
                        [.writeFile (sourcesList for_install)
                          (mediaSourceLine env.codename)]
                      Outcome.bind
                        (curtin env
                          ["in-target", "-t", for_install, "--",
                           "apt-get", "update"] none s6 tr10)
                        (fun _ s7 tr11 => .ok for_install s7 tr11)))))

/-- The string `f'{self.configured}/{dir}'` prefix: Python formats `None` as the string
`"None"` when `configure` has not run. -/
def configuredStr (s : AptState) : String :=
  match s.configured with
  | some c => c
  | none => "None"

/-- The `restore_dirs` list of `deconfigure`: `['etc/apt']`, with
`'var/lib/apt/lists'` appended when the network is unavailable. -/
def restoreList (env : Env) : List String :=
  if env.hasNetwork then ["etc/apt"] else ["etc/apt", "var/lib/apt/lists"]

/-- The `for dir in restore_dirs` loop of `deconfigure`: remove the target
copy and copy the `configured` overlay's copy into place. -/
def restoreDirs (env : Env) (target cfgd : String) :
    List String → AptState → List Event → Outcome Unit
  | [], s, tr => .ok () s tr
  | d :: ds, s, tr =>
    Outcome.bind
      (runCmd env ["cp", "-aT", cfgd ++ "/" ++ d, target ++ "/" ++ d] s
        (tr ++ [.rmtree (target ++ "/" ++ d)]))
      (fun _ s1 tr1 => restoreDirs env target cfgd ds s1 tr1)

/-- The `for m in reversed(self._mounts)` loop of `deconfigure`, applied to
an explicit list of mountpoints. -/
def unmountAll (env : Env) :
    List String → AptState → List Event → Outcome Unit
  | [], s, tr => .ok () s tr
  | m :: ms, s, tr =>
    Outcome.bind (unmount env m s tr)
      (fun _ s1 tr1 => unmountAll env ms s1 tr1)

/-- Model of `AptConfigurer.deconfigure(context, target)`: unmount and remove the
cdrom mountpoint, restore `restore_dirs` from the `configured` overlay, run
`apt-get update` when the network is available, unmount every tracked mount
in reverse order, remove every tracked scratch directory, and run `apt-get
update` again when the network is available. -/
def deconfigure (env : Env) (target : String) (s : AptState)
    (tr : List Event) : Outcome Unit :=
  Outcome.bind (unmount env (target ++ "/cdrom") s tr)
    (fun _ s1 tr1 =>
      let tr2 := tr1 ++ [.rmdir (target ++ "/cdrom")]
      Outcome.bind
        (restoreDirs env target (configuredStr s1) (restoreList env) s1 tr2)
        (fun _ s2 tr3 =>
          Outcome.bind
            (if env.hasNetwork then
              curtin env ["in-target", "-t", target, "--", "apt-get", "update"]
                none s2 tr3
            else .ok () s2 tr3)
            (fun _ s3 tr4 =>
              Outcome.bind (unmountAll env s3.mounts.reverse s3 tr4)
                (fun _ s4 tr5 =>
                  let tr6 := tr5 ++ s4.tdirs.map .rmtree
                  if env.hasNetwork then
                    curtin env
                      ["in-target", "-t", target, "--", "apt-get", "update"]
                      none s4 tr6
                  else .ok () s4 tr6))))

/-- Model of `DryRunAptConfigurer.setup_overlay`: copy-based approximation used in
dry-run mode; decodes the `u+` marker, copies `etc/apt` from the decoded
source, resets `sources.list.d`, and returns `'u+' + target`. -/
def dryRun_setup_overlay (env : Env) (source target : String) (s : AptState)
    (tr : List Event) : Outcome String :=
  let src :=
    if source.startsWith ("u+") then
      (((source.splitOn (":")).headD ("")).drop 2)
    else source
  let tr1 := tr ++ [.mkdir (target ++ "/etc")]
  Outcome.bind
    (arun env ["cp", "-aT", src ++ "/etc/apt", target ++ "/etc/apt"] s tr1)
    (fun _ s1 tr2 =>
      let tr3 :=
        if env.isDir (target ++ "/etc/apt/sources.list.d") then
          tr2 ++ [.rmtree (target ++ "/etc/apt/sources.list.d")]
        else tr2
      .ok ("u+" ++ target) s1
        (tr3 ++ [.mkdir (target ++ "/etc/apt/sources.list.d")]))

/-- Model of `DryRunAptConfigurer.deconfigure(context, target)`, whose body is `return`. -/
def dryRun_deconfigure (env : Env) (context target : String) (s : AptState)
    (tr : List Event) : Outcome Unit :=
  .ok () s tr

/-! ### Success-path characterizations

With an environment in which every external command succeeds, each method's
outcome can be computed in closed form: the state it leaves behind and the
exact event trace it appends. -/

lemma runCmd_ok (env : Env) (argv : List String) (s : AptState)
    (tr : List Event) (h : env.runnerOk argv = true) :
    runCmd env argv s tr = .ok () s (tr ++ [.runCmd argv]) := by
  simp [runCmd, h]

lemma curtin_ok (env : Env) (args : List String) (config : Option String)
    (s : AptState) (tr : List Event) (h : env.curtinOk args config = true) :
    curtin env args config s tr = .ok () s (tr ++ [.curtinCmd args config]) := by
  simp [curtin, h]

lemma mount_ok (env : Env) (device mountpoint : String)
    (options type : Option String) (s : AptState) (tr : List Event)
    (h : env.runnerOk (mountArgv options type device mountpoint) = true) :
    mount env device mountpoint options type s tr =
      .ok () { s with mounts := s.mounts ++ [mountpoint] }
        (tr ++ [.runCmd (mountArgv options type device mountpoint)]) := by
  simp [mount, h]

/-- The events the `restore_dirs` loop appends for a given list of relative
directories. -/
def restoreEvents (target cfgd : String) : List String → List Event
  | [] => []
  | d :: ds =>
      .rmtree (target ++ "/" ++ d) ::
      .runCmd ["cp", "-aT", cfgd ++ "/" ++ d, target ++ "/" ++ d] ::
      restoreEvents target cfgd ds

lemma restoreDirs_ok (env : Env) (hrun : ∀ a, env.runnerOk a = true)
    (target cfgd : String) :
    ∀ (ds : List String) (s : AptState) (tr : List Event),
    restoreDirs env target cfgd ds s tr =
      .ok () s (tr ++ restoreEvents target cfgd ds)
  | [], s, tr => by simp [restoreDirs, restoreEvents]
  | d :: ds, s, tr => by
    simp [restoreDirs, restoreEvents,
      runCmd_ok env _ _ _ (hrun _), Outcome.bind,
      restoreDirs_ok env hrun target cfgd ds]

lemma unmountAll_ok (env : Env) (hrun : ∀ a, env.runnerOk a = true) :
    ∀ (ms : List String) (s : AptState) (tr : List Event),
    unmountAll env ms s tr = .ok () s (tr ++ ms.map umountEvent)
  | [], s, tr => by simp [unmountAll]
  | m :: ms, s, tr => by
    simp [unmountAll, unmount, runCmd_ok env _ _ _ (hrun _), Outcome.bind,
      unmountAll_ok env hrun ms, umountEvent]

/-- The exact event trace a successful `deconfigure(context, target)`
appends, as a function of the environment and the session state. -/
def deconfigureEvents (env : Env) (target : String) (s : AptState) :
    List Event :=
  [umountEvent (target ++ "/cdrom"), .rmdir (target ++ "/cdrom")]
    ++ restoreEvents target (configuredStr s) (restoreList env)
    ++ (if env.hasNetwork then [aptUpdateEvent target] else [])
    ++ s.mounts.reverse.map umountEvent
    ++ s.tdirs.map .rmtree
    ++ (if env.hasNetwork then [aptUpdateEvent target] else [])

lemma deconfigure_ok (env : Env) (target : String) (s : AptState)
    (tr : List Event) (hrun : ∀ a, env.runnerOk a = true)
    (hcur : ∀ a c, env.curtinOk a c = true) :
    deconfigure env target s tr =
      .ok () s (tr ++ deconfigureEvents env target s) := by
  cases hn : env.hasNetwork <;>
    simp [deconfigure, unmount, runCmd_ok env _ _ _ (hrun _),
      curtin_ok env _ _ _ _ (hcur _ _), Outcome.bind,
      restoreDirs_ok env hrun, unmountAll_ok env hrun,
      deconfigureEvents, hn, umountEvent, aptUpdateEvent]

/-- The scratch directory allocated as `self.configured` by `configure`
(the first `tdir()` call of the run). -/
def cfgdDir (env : Env) (s : AptState) : String :=
  env.freshDir s.tdirs.length

/-- The upper layer of the first (`configured`) overlay, `config_upper`. -/
def stage1Upper (env : Env) (s : AptState) : String :=
  env.freshDir (s.tdirs.length + 1) ++ "/upper"

/-- The `for_install` directory allocated by `configure`
(the third `tdir()` call of the run). -/
def forInstallDir (env : Env) (s : AptState) : String :=
  env.freshDir (s.tdirs.length + 2)

/-- The exact event trace a successful `configure(context)` appends, as a
function of the environment and the starting session state. -/
def configureEvents (env : Env) (s : AptState) : List Event :=
  let cfgd := cfgdDir env s
  let t1 := env.freshDir (s.tdirs.length + 1)
  let u1 := stage1Upper env s
  let fi := forInstallDir env s
  let t2 := env.freshDir (s.tdirs.length + 3)
  [Event.mkdtemp cfgd, .mkdtemp t1, .mkdir (t1 ++ "/work"),
   .mkdir (t1 ++ "/upper"),
   .runCmd (overlayArgv s.source u1 (t1 ++ "/work") cfgd),
   .writeFile (configLocation env) (env.datestr ++ env.mirrorYaml),
   .apport ("CurtinAptConfig") (configLocation env),
   .curtinCmd ["apt-config", "-t", cfgd] (some (configLocation env)),
   .mkdtemp fi, .mkdtemp t2, .mkdir (t2 ++ "/work"), .mkdir (t2 ++ "/upper"),
   .runCmd (overlayArgv (u1 ++ ":" ++ s.source) (t2 ++ "/upper")
     (t2 ++ "/work") fi),
   .mkdir (fi ++ "/cdrom"),
   .runCmd (mountArgv (some ("bind")) none ("/cdrom") (fi ++ "/cdrom"))]
  ++ (if env.hasNetwork then
        [Event.rename (sourcesList fi) (originalList fi)]
      else if env.pathExists (proxyPath fi) then
        [Event.unlink (proxyPath fi)]
      else [])
  ++ [.writeFile (sourcesList fi) (mediaSourceLine env.codename),
      aptUpdateEvent fi]

/-- The session state a successful `configure(context)` leaves behind:
`configured` points at the first scratch dir, three mountpoints were
recorded (the two overlays and the cdrom bind mount), four scratch
directories were allocated. -/
def configureFinal (env : Env) (s : AptState) : AptState :=
  { s with
    configured := some (cfgdDir env s),
    mounts := s.mounts ++
      [cfgdDir env s, forInstallDir env s, forInstallDir env s ++ "/cdrom"],
    tdirs := s.tdirs ++
      [cfgdDir env s, env.freshDir (s.tdirs.length + 1), forInstallDir env s,
       env.freshDir (s.tdirs.length + 3)] }

lemma configure_ok (env : Env) (s : AptState) (tr : List Event)
    (hrun : ∀ a, env.runnerOk a = true)
    (hcur : ∀ a c, env.curtinOk a c = true) :
    configure env s tr =
      .ok (forInstallDir env s) (configureFinal env s)
        (tr ++ configureEvents env s) := by
  cases hn : env.hasNetwork
  · simp only [configure, setup_overlay, tdir, Outcome.bind,
      mount_ok env _ _ _ _ _ _ (hrun _), curtin_ok env _ _ _ _ (hcur _ _),
      configureEvents, configureFinal, cfgdDir, stage1Upper, forInstallDir,
      overlayArgv, hn, aptUpdateEvent, List.length_append, List.length_cons,
      List.length_nil, Bool.false_eq_true, if_false]
    split <;> simp
  · simp [configure, setup_overlay, tdir, Outcome.bind,
      mount_ok env _ _ _ _ _ _ (hrun _), curtin_ok env _ _ _ _ (hcur _ _),
      configureEvents, configureFinal, cfgdDir, stage1Upper, forInstallDir,
      overlayArgv, hn, aptUpdateEvent]

/-! ### Trace observations

Predicates and projections used to state the claims: which trace entries are
external unmount invocations, index updates, renames, unlinks, `cp -aT`
restores, recursive removals, and file writes. -/

/-- Is this trace entry an invocation of the external unmount operation? -/
def isUmount : Event → Bool
  | .runCmd ("umount" :: _) => true
  | _ => false

/-- Number of external unmount invocations in a trace. -/
def countUmounts (tr : List Event) : Nat := tr.countP isUmount

/-- Is this trace entry the external package-index-update operation
(`in-target -t root -- apt-get update` through curtin)? -/
def isIndexUpdate : Event → Bool
  | .curtinCmd ["in-target", "-t", _, "--", "apt-get", "update"] _ => true
  | _ => false

/-- Number of package-index-update invocations in a trace. -/
def countIndexUpdates (tr : List Event) : Nat := tr.countP isIndexUpdate

/-- Is this trace entry an `os.rename`? -/
def isRename : Event → Bool
  | .rename _ _ => true
  | _ => false

/-- Number of `os.rename` calls in a trace. -/
def countRenames (tr : List Event) : Nat := tr.countP isRename

/-- Is this trace entry an `os.unlink`? -/
def isUnlink : Event → Bool
  | .unlink _ => true
  | _ => false

/-- Number of `os.unlink` calls in a trace. -/
def countUnlinks (tr : List Event) : Nat := tr.countP isUnlink

/-- The (source, destination) of a `cp -aT` restore invocation, if this
trace entry is one. -/
def cpPairOf : Event → Option (String × String)
  | .runCmd ["cp", "-aT", src, dst] => some (src, dst)
  | _ => none

/-- All `cp -aT` restore invocations in a trace, in order. -/
def cpPairs (tr : List Event) : List (String × String) := tr.filterMap cpPairOf

/-- The path of a `shutil.rmtree` call, if this trace entry is one. -/
def rmtreeOf : Event → Option String
  | .rmtree p => some p
  | _ => none

/-- All `shutil.rmtree` paths in a trace, in order. -/
def rmtreePaths (tr : List Event) : List String := tr.filterMap rmtreeOf

/-- The content of a `write_file` to path `p`, if this trace entry is one. -/
def writeAt (p : String) : Event → Option String
  | .writeFile q c => if q = p then some c else none
  | _ => none

/-- All contents written to path `p` in a trace, in order. -/
def writesTo (tr : List Event) (p : String) : List String :=
  tr.filterMap (writeAt p)

lemma countUmounts_map_umountEvent (ms : List String) :
    countUmounts (ms.map umountEvent) = ms.length := by
  induction ms with
  | nil => rfl
  | cons m ms ih => simp [countUmounts, List.countP_cons, isUmount,
      umountEvent] at ih ⊢

lemma countUmounts_map_rmtree (ds : List String) :
    countUmounts (ds.map Event.rmtree) = 0 := by
  induction ds with
  | nil => rfl
  | cons d ds ih => simpa [countUmounts, List.countP_cons, isUmount] using ih

lemma countUmounts_restoreEvents (target cfgd : String) (ds : List String) :
    countUmounts (restoreEvents target cfgd ds) = 0 := by
  induction ds with
  | nil => rfl
  | cons d ds ih => simpa [countUmounts, restoreEvents, List.countP_cons,
      isUmount] using ih

lemma countIndexUpdates_map_umountEvent (ms : List String) :
    countIndexUpdates (ms.map umountEvent) = 0 := by
  induction ms with
  | nil => rfl
  | cons m ms ih => simpa [countIndexUpdates, List.countP_cons,
      isIndexUpdate, umountEvent] using ih

lemma countIndexUpdates_map_rmtree (ds : List String) :
    countIndexUpdates (ds.map Event.rmtree) = 0 := by
  induction ds with
  | nil => rfl
  | cons d ds ih => simpa [countIndexUpdates, List.countP_cons,
      isIndexUpdate] using ih

lemma countIndexUpdates_restoreEvents (target cfgd : String)
    (ds : List String) :
    countIndexUpdates (restoreEvents target cfgd ds) = 0 := by
  induction ds with
  | nil => rfl
  | cons d ds ih => simpa [countIndexUpdates, restoreEvents,
      List.countP_cons, isIndexUpdate] using ih

lemma cpPairs_map_umountEvent (ms : List String) :
    cpPairs (ms.map umountEvent) = [] := by
  induction ms with
  | nil => rfl
  | cons m ms ih => simpa [cpPairs, cpPairOf, umountEvent] using ih

lemma cpPairs_map_rmtree (ds : List String) :
    cpPairs (ds.map Event.rmtree) = [] := by
  induction ds with
  | nil => rfl
  | cons d ds ih => simpa [cpPairs, cpPairOf] using ih

lemma cpPairs_restoreEvents (target cfgd : String) (ds : List String) :
    cpPairs (restoreEvents target cfgd ds) =
      ds.map (fun d => (cfgd ++ "/" ++ d, target ++ "/" ++ d)) := by
  induction ds with
  | nil => rfl
  | cons d ds ih => simpa [cpPairs, restoreEvents, cpPairOf] using ih

lemma rmtreePaths_map_umountEvent (ms : List String) :
    rmtreePaths (ms.map umountEvent) = [] := by
  induction ms with
  | nil => rfl
  | cons m ms ih => simpa [rmtreePaths, rmtreeOf, umountEvent] using ih

lemma rmtreePaths_map_rmtree (ds : List String) :
    rmtreePaths (ds.map Event.rmtree) = ds := by
  induction ds with
  | nil => rfl
  | cons d ds ih => simpa [rmtreePaths, rmtreeOf] using ih

lemma rmtreePaths_restoreEvents (target cfgd : String) (ds : List String) :
    rmtreePaths (restoreEvents target cfgd ds) =
      ds.map (fun d => target ++ "/" ++ d) := by
  induction ds with
  | nil => rfl
  | cons d ds ih => simpa [rmtreePaths, restoreEvents, rmtreeOf] using ih

lemma countUmounts_append (l₁ l₂ : List Event) :
    countUmounts (l₁ ++ l₂) = countUmounts l₁ + countUmounts l₂ :=
  List.countP_append _ _ _

lemma countIndexUpdates_append (l₁ l₂ : List Event) :
    countIndexUpdates (l₁ ++ l₂) =
      countIndexUpdates l₁ + countIndexUpdates l₂ :=
  List.countP_append _ _ _

lemma cpPairs_append (l₁ l₂ : List Event) :
    cpPairs (l₁ ++ l₂) = cpPairs l₁ ++ cpPairs l₂ :=
  List.filterMap_append _ _ _

lemma rmtreePaths_append (l₁ l₂ : List Event) :
    rmtreePaths (l₁ ++ l₂) = rmtreePaths l₁ ++ rmtreePaths l₂ :=
  List.filterMap_append _ _ _

lemma writesTo_append (l₁ l₂ : List Event) (p : String) :
    writesTo (l₁ ++ l₂) p = writesTo l₁ p ++ writesTo l₂ p :=
  List.filterMap_append _ _ _

lemma countUmounts_cdromPre (c : String) :
    countUmounts [umountEvent c, Event.rmdir c] = 2 - 1 := rfl

lemma countIndexUpdates_cdromPre (c : String) :
    countIndexUpdates [umountEvent c, Event.rmdir c] = 0 := rfl

lemma countIndexUpdates_single (t : String) :
    countIndexUpdates [aptUpdateEvent t] = 1 := rfl

lemma countUmounts_single_update (t : String) :
    countUmounts [aptUpdateEvent t] = 0 := rfl

lemma cpPairs_cdromPre (c : String) :
    cpPairs [umountEvent c, Event.rmdir c] = [] := rfl

lemma cpPairs_single_update (t : String) :
    cpPairs [aptUpdateEvent t] = [] := rfl

lemma rmtreePaths_cdromPre (c : String) :
    rmtreePaths [umountEvent c, Event.rmdir c] = [] := rfl

lemma rmtreePaths_single_update (t : String) :
    rmtreePaths [aptUpdateEvent t] = [] := rfl

lemma countIndexUpdates_cons_umount (c : String) (tr : List Event) :
    countIndexUpdates (umountEvent c :: tr) = countIndexUpdates tr := by
  simp [countIndexUpdates, List.countP_cons, isIndexUpdate, umountEvent]

lemma countIndexUpdates_cons_rmdir (c : String) (tr : List Event) :
    countIndexUpdates (Event.rmdir c :: tr) = countIndexUpdates tr := by
  simp [countIndexUpdates, List.countP_cons, isIndexUpdate]

lemma countIndexUpdates_cons_update (t : String) (tr : List Event) :
    countIndexUpdates (aptUpdateEvent t :: tr) = countIndexUpdates tr + 1 := by
  simp [countIndexUpdates, List.countP_cons, isIndexUpdate, aptUpdateEvent]

lemma countUmounts_cons_umount (c : String) (tr : List Event) :
    countUmounts (umountEvent c :: tr) = countUmounts tr + 1 := by
  simp [countUmounts, List.countP_cons, isUmount, umountEvent]

lemma countUmounts_cons_rmdir (c : String) (tr : List Event) :
    countUmounts (Event.rmdir c :: tr) = countUmounts tr := by
  simp [countUmounts, List.countP_cons, isUmount]

lemma countUmounts_cons_update (t : String) (tr : List Event) :
    countUmounts (aptUpdateEvent t :: tr) = countUmounts tr := by
  simp [countUmounts, List.countP_cons, isUmount, aptUpdateEvent]

lemma cpPairs_cons_umount (c : String) (tr : List Event) :
    cpPairs (umountEvent c :: tr) = cpPairs tr := by
  simp [cpPairs, cpPairOf, umountEvent]

lemma cpPairs_cons_rmdir (c : String) (tr : List Event) :
    cpPairs (Event.rmdir c :: tr) = cpPairs tr := by
  simp [cpPairs, cpPairOf]

lemma cpPairs_cons_update (t : String) (tr : List Event) :
    cpPairs (aptUpdateEvent t :: tr) = cpPairs tr := by
  simp [cpPairs, cpPairOf, aptUpdateEvent]

lemma rmtreePaths_cons_umount (c : String) (tr : List Event) :
    rmtreePaths (umountEvent c :: tr) = rmtreePaths tr := by
  simp [rmtreePaths, rmtreeOf, umountEvent]

lemma rmtreePaths_cons_rmdir (c : String) (tr : List Event) :
    rmtreePaths (Event.rmdir c :: tr) = rmtreePaths tr := by
  simp [rmtreePaths, rmtreeOf]

lemma rmtreePaths_cons_update (t : String) (tr : List Event) :
    rmtreePaths (aptUpdateEvent t :: tr) = rmtreePaths tr := by
  simp [rmtreePaths, rmtreeOf, aptUpdateEvent]

lemma cpPairs_nil : cpPairs [] = [] := rfl

lemma rmtreePaths_nil : rmtreePaths [] = [] := rfl

lemma cpPairs_reverse_map_umount (ms : List String) :
    cpPairs ((ms.map umountEvent).reverse) = [] := by
  rw [← List.map_reverse]
  exact cpPairs_map_umountEvent _

lemma rmtreePaths_reverse_map_umount (ms : List String) :
    rmtreePaths ((ms.map umountEvent).reverse) = [] := by
  rw [← List.map_reverse]
  exact rmtreePaths_map_umountEvent _

lemma countIndexUpdates_nil : countIndexUpdates [] = 0 := rfl

lemma countUmounts_nil : countUmounts [] = 0 := rfl

lemma countIndexUpdates_reverse_map_umount (ms : List String) :
    countIndexUpdates ((ms.map umountEvent).reverse) = 0 := by
  rw [← List.map_reverse]
  exact countIndexUpdates_map_umountEvent _

/-- A concrete environment in which every external command succeeds and the
network is available. -/
def envNet : Env :=
  { hasNetwork := true, codename := "xyz", mirrorYaml := "apt mirror cfg\n",
    datestr := "generated header\n", appRoot := "/approot",
    runnerOk := fun _ => true, curtinOk := fun _ _ => true,
    pathExists := fun _ => false, isDir := fun _ => true,
    freshDir := fun n => "/tmp/scratch" ++ toString n }

/-- The same environment with no network and the proxy fragment present. -/
def envNoNet : Env :=
  { envNet with hasNetwork := false, pathExists := fun _ => true }

/-- A concrete mid-session state used by the witnesses. -/
def sWit : AptState :=
  { source := "/source", configured := some ("/cfgd"),
    mounts := ["/mnt/a", "/mnt/b"], tdirs := ["/tmp/t0"] }

/-- C1: for a session whose tracked mounts list holds `N` mountpoints
(everything `configure` recorded), the teardown loop of `deconfigure`
appends a contiguous block of external unmount invocations that is exactly
`mounts.reverse`, mapped to unmount commands: `N` invocations, in exactly
the reverse of the recorded order, and no unmount invocation follows that
block. -/
theorem deconfigure_unmounts_reverse (env : Env) (target : String)
    (s : AptState) (hrun : ∀ a, env.runnerOk a = true)
    (hcur : ∀ a c, env.curtinOk a c = true) :
    ∃ pre post,
      deconfigure env target s [] =
        .ok () s (pre ++ s.mounts.reverse.map umountEvent ++ post) ∧
      (s.mounts.reverse.map umountEvent).length = s.mounts.length ∧
      countUmounts post = 0 := by
  refine ⟨[umountEvent (target ++ "/cdrom"), .rmdir (target ++ "/cdrom")]
      ++ restoreEvents target (configuredStr s) (restoreList env)
      ++ (if env.hasNetwork then [aptUpdateEvent target] else []),
    s.tdirs.map .rmtree
      ++ (if env.hasNetwork then [aptUpdateEvent target] else []),
    ?_, ?_, ?_⟩
  · rw [deconfigure_ok env target s [] hrun hcur]
    simp [deconfigureEvents]
  · simp
  · cases hn : env.hasNetwork <;>
      simp [hn, countUmounts_append, countUmounts_map_rmtree,
        countUmounts_single_update, countUmounts, isUmount, aptUpdateEvent]

/-- Witness for C1: the concrete all-success environment and a session with
two recorded mounts. -/
theorem deconfigure_unmounts_reverse_witness :
    ∃ pre post,
      deconfigure envNet ("/target") sWit [] =
        .ok () sWit (pre ++ sWit.mounts.reverse.map umountEvent ++ post) ∧
      (sWit.mounts.reverse.map umountEvent).length = sWit.mounts.length ∧
      countUmounts post = 0 :=
  deconfigure_unmounts_reverse envNet ("/target") sWit (fun _ => rfl)
    (fun _ _ => rfl)

/-- C2: a successful `deconfigure` invokes the external
package-index-update operation (`apt-get update` in-target against the
install root) exactly twice when the network is available — once before the
tracked-mounts teardown block and once after it — and zero times when the
network is unavailable. -/
theorem deconfigure_update_twice_iff_network (env : Env) (target : String)
    (s : AptState) (hrun : ∀ a, env.runnerOk a = true)
    (hcur : ∀ a c, env.curtinOk a c = true) :
    ∃ tr,
      deconfigure env target s [] = .ok () s tr ∧
      countIndexUpdates tr = (if env.hasNetwork then 2 else 0) ∧
      (if env.hasNetwork then
        ∃ pre, tr = pre ++ [aptUpdateEvent target]
            ++ s.mounts.reverse.map umountEvent ++ s.tdirs.map Event.rmtree
            ++ [aptUpdateEvent target]
          ∧ countIndexUpdates pre = 0
       else countIndexUpdates tr = 0) := by
  refine ⟨deconfigureEvents env target s, ?_, ?_, ?_⟩
  · rw [deconfigure_ok env target s [] hrun hcur]
    simp
  · cases hn : env.hasNetwork <;>
      simp [deconfigureEvents, hn, countIndexUpdates_append,
        countIndexUpdates_cons_umount, countIndexUpdates_cons_rmdir,
        countIndexUpdates_cons_update, countIndexUpdates_restoreEvents,
        countIndexUpdates_map_rmtree, countIndexUpdates_reverse_map_umount,
        countIndexUpdates_nil]
  · cases hn : env.hasNetwork
    · simp [deconfigureEvents, hn, countIndexUpdates_append,
        countIndexUpdates_cons_umount, countIndexUpdates_cons_rmdir,
        countIndexUpdates_restoreEvents, countIndexUpdates_map_rmtree,
        countIndexUpdates_reverse_map_umount, countIndexUpdates_nil]
    · simp only [hn, if_true]
      refine ⟨[umountEvent (target ++ "/cdrom"), .rmdir (target ++ "/cdrom")]
          ++ restoreEvents target (configuredStr s) (restoreList env),
        ?_, ?_⟩
      · simp [deconfigureEvents, hn]
      · simp [countIndexUpdates_append, countIndexUpdates_cons_umount,
          countIndexUpdates_cons_rmdir, countIndexUpdates_restoreEvents]

/-- Witness for C2 with network available (two updates) at the concrete
all-success environment. -/
theorem deconfigure_update_twice_iff_network_witness :
    ∃ tr,
      deconfigure envNet ("/target") sWit [] = .ok () sWit tr ∧
      countIndexUpdates tr = (if envNet.hasNetwork then 2 else 0) ∧
      (if envNet.hasNetwork then
        ∃ pre, tr = pre ++ [aptUpdateEvent ("/target")]
            ++ sWit.mounts.reverse.map umountEvent
            ++ sWit.tdirs.map Event.rmtree
            ++ [aptUpdateEvent ("/target")]
          ∧ countIndexUpdates pre = 0
       else countIndexUpdates tr = 0) :=
  deconfigure_update_twice_iff_network envNet ("/target") sWit (fun _ => rfl)
    (fun _ _ => rfl)

/-- C7: a successful `deconfigure` issues exactly one `cp -aT` restore per
entry of `restore_dirs` — `etc/apt` always, and `var/lib/apt/lists` exactly
when the network is unavailable — copying from the `configured` overlay's
corresponding path onto the install root's path; every such restore is
preceded by the recursive removal of the install-root copy, and no other
directory is restored. -/
theorem deconfigure_restore_dirs (env : Env) (target : String) (s : AptState)
    (hrun : ∀ a, env.runnerOk a = true)
    (hcur : ∀ a c, env.curtinOk a c = true) :
    ∃ tr,
      deconfigure env target s [] = .ok () s tr ∧
      cpPairs tr = (restoreList env).map
        (fun d => (configuredStr s ++ "/" ++ d, target ++ "/" ++ d)) ∧
      rmtreePaths tr =
        (restoreList env).map (fun d => target ++ "/" ++ d) ++ s.tdirs ∧
      restoreList env =
        (if env.hasNetwork then ["etc/apt"]
         else ["etc/apt", "var/lib/apt/lists"]) := by
  refine ⟨deconfigureEvents env target s, ?_, ?_, ?_, rfl⟩
  · rw [deconfigure_ok env target s [] hrun hcur]
    simp
  · cases hn : env.hasNetwork <;>
      simp [deconfigureEvents, hn, cpPairs_append, cpPairs_cons_umount,
        cpPairs_cons_rmdir, cpPairs_cons_update, cpPairs_restoreEvents,
        cpPairs_map_umountEvent, cpPairs_map_rmtree, cpPairs_single_update,
        cpPairs_reverse_map_umount, cpPairs_nil, restoreList]
  · cases hn : env.hasNetwork <;>
      simp [deconfigureEvents, hn, rmtreePaths_append, rmtreePaths_cons_umount,
        rmtreePaths_cons_rmdir, rmtreePaths_cons_update,
        rmtreePaths_restoreEvents, rmtreePaths_map_umountEvent,
        rmtreePaths_map_rmtree, rmtreePaths_single_update,
        rmtreePaths_reverse_map_umount, rmtreePaths_nil, restoreList]

/-- Witness for C7 with the network unavailable (both directories are
restored) at a concrete environment. -/
theorem deconfigure_restore_dirs_witness :
    ∃ tr,
      deconfigure envNoNet ("/target") sWit [] = .ok () sWit tr ∧
      cpPairs tr = (restoreList envNoNet).map
        (fun d => (configuredStr sWit ++ "/" ++ d, "/target" ++ "/" ++ d)) ∧
      rmtreePaths tr =
        (restoreList envNoNet).map (fun d => "/target" ++ "/" ++ d)
          ++ sWit.tdirs ∧
      restoreList envNoNet =
        (if envNoNet.hasNetwork then ["etc/apt"]
         else ["etc/apt", "var/lib/apt/lists"]) :=
  deconfigure_restore_dirs envNoNet ("/target") sWit (fun _ => rfl)
    (fun _ _ => rfl)

/-- C4: each successful `configure` call performs exactly one of the two
branch actions, selected solely by network availability: with network, the
default source list is renamed to `original.list` and no unlink happens at
all; without network, no rename happens at all and the proxy fragment is
unlinked exactly when it exists. -/
theorem configure_network_branch_exclusive (env : Env) (s : AptState)
    (hrun : ∀ a, env.runnerOk a = true)
    (hcur : ∀ a c, env.curtinOk a c = true) :
    ∃ s' tr,
      configure env s [] = .ok (forInstallDir env s) s' tr ∧
      (if env.hasNetwork then
        Event.rename (sourcesList (forInstallDir env s))
            (originalList (forInstallDir env s)) ∈ tr ∧
          countUnlinks tr = 0
       else
        countRenames tr = 0 ∧
          (Event.unlink (proxyPath (forInstallDir env s)) ∈ tr ↔
            env.pathExists (proxyPath (forInstallDir env s)) = true)) := by
  refine ⟨configureFinal env s, configureEvents env s, ?_, ?_⟩
  · rw [configure_ok env s [] hrun hcur]
    simp
  · cases hn : env.hasNetwork
    · cases hp : env.pathExists (proxyPath (forInstallDir env s)) <;>
        simp [configureEvents, hn, hp, countRenames, countUnlinks,
          List.countP_cons, List.countP_append, isRename, isUnlink,
          aptUpdateEvent]
    · simp [configureEvents, hn, countUnlinks, List.countP_cons,
        List.countP_append, isUnlink, aptUpdateEvent]

/-- Witness for C4 in the network-available branch at the concrete
all-success environment. -/
theorem configure_network_branch_exclusive_witness :
    ∃ s' tr,
      configure envNet sWit [] = .ok (forInstallDir envNet sWit) s' tr ∧
      (if envNet.hasNetwork then
        Event.rename (sourcesList (forInstallDir envNet sWit))
            (originalList (forInstallDir envNet sWit)) ∈ tr ∧
          countUnlinks tr = 0
       else
        countRenames tr = 0 ∧
          (Event.unlink (proxyPath (forInstallDir envNet sWit)) ∈ tr ↔
            envNet.pathExists (proxyPath (forInstallDir envNet sWit)) =
              true)) :=
  configure_network_branch_exclusive envNet sWit (fun _ => rfl)
    (fun _ _ => rfl)

/-- The curtin config document path and the `for_install` sources.list path
can never coincide: their fixed suffixes end in different characters. -/
lemma configLocation_ne_sourcesList (a b : String) :
    a ++ "/var/log/installer/subiquity-curtin-apt.conf" ≠
      b ++ "/etc/apt/sources.list" := by
  intro h
  have h2 := congrArg (fun t => t.data.getLast?) h
  simp only [String.data_append] at h2
  rw [List.getLast?_append_of_ne_nil _ (by decide),
    List.getLast?_append_of_ne_nil _ (by decide)] at h2
  revert h2
  decide

lemma mediaSourceLine_xyz :
    mediaSourceLine ("xyz") =
      "deb [check-date=no] file:///cdrom xyz main restricted\n" := rfl

/-- C5: with network unavailable and release codename `xyz`, the only write
`configure` ever makes to the `for_install` root's `etc/apt/sources.list`
is the single line `deb [check-date=no] file:///cdrom xyz main
restricted\n`, whatever the prior session state. -/
theorem configure_sources_list_content (env : Env) (s : AptState)
    (hnet : env.hasNetwork = false) (hcode : env.codename = "xyz")
    (hrun : ∀ a, env.runnerOk a = true)
    (hcur : ∀ a c, env.curtinOk a c = true) :
    ∃ s' tr,
      configure env s [] = .ok (forInstallDir env s) s' tr ∧
      writesTo tr (sourcesList (forInstallDir env s)) =
        ["deb [check-date=no] file:///cdrom xyz main restricted\n"] := by
  refine ⟨configureFinal env s, configureEvents env s, ?_, ?_⟩
  · rw [configure_ok env s [] hrun hcur]
    simp
  · cases hp : env.pathExists (proxyPath (forInstallDir env s)) <;>
      simp [configureEvents, hnet, hp, hcode, writesTo, writeAt,
        List.filterMap_cons, List.filterMap_append, mediaSourceLine_xyz,
        configLocation, sourcesList, configLocation_ne_sourcesList,
        aptUpdateEvent]

/-- Witness for C5 at a concrete no-network environment with the proxy
fragment present. -/
theorem configure_sources_list_content_witness :
    ∃ s' tr,
      configure envNoNet sWit [] = .ok (forInstallDir envNoNet sWit) s' tr ∧
      writesTo tr (sourcesList (forInstallDir envNoNet sWit)) =
        ["deb [check-date=no] file:///cdrom xyz main restricted\n"] :=
  configure_sources_list_content envNoNet sWit rfl rfl (fun _ => rfl)
    (fun _ _ => rfl)

/-- Leftmost-wins search of an overlay's lower-layer list: each layer maps a
path to an optional entry, and the first (leftmost) layer holding the path
wins. -/
def lowerSearch : List (String → Option String) → String → Option String
  | [], _ => none
  | l :: ls, p =>
    match l p with
    | some v => some v
    | none => lowerSearch ls p

/-- C6: the second overlay mount issued by `configure` — the one whose
target is `for_install` — receives the lower-layer specification
`config_upper + ':' + self.source`, the stage-1 upper layer joined with a
colon before the original source in that order; and under leftmost-wins
search with the stage-1 upper layer leftmost, any entry of the stage-1
upper layer (any stage-1 edit) is the value the composed view yields. -/
theorem for_install_lower_spec (env : Env) (s : AptState)
    (upper lower : String → Option String) (p v : String)
    (hrun : ∀ a, env.runnerOk a = true)
    (hcur : ∀ a c, env.curtinOk a c = true)
    (hup : upper p = some v) :
    ∃ s' tr,
      configure env s [] = .ok (forInstallDir env s) s' tr ∧
      Event.runCmd (overlayArgv (stage1Upper env s ++ ":" ++ s.source)
          (env.freshDir (s.tdirs.length + 3) ++ "/upper")
          (env.freshDir (s.tdirs.length + 3) ++ "/work")
          (forInstallDir env s)) ∈ tr ∧
      lowerSearch [upper, lower] p = some v := by
  refine ⟨configureFinal env s, configureEvents env s, ?_, ?_, ?_⟩
  · rw [configure_ok env s [] hrun hcur]
    simp
  · simp [configureEvents]
  · simp [lowerSearch, hup]

/-- Witness for C6 at the concrete all-success environment, with a one-entry
stage-1 upper layer. -/
theorem for_install_lower_spec_witness :
    ∃ s' tr,
      configure envNet sWit [] = .ok (forInstallDir envNet sWit) s' tr ∧
      Event.runCmd (overlayArgv (stage1Upper envNet sWit ++ ":" ++
            sWit.source)
          (envNet.freshDir (sWit.tdirs.length + 3) ++ "/upper")
          (envNet.freshDir (sWit.tdirs.length + 3) ++ "/work")
          (forInstallDir envNet sWit)) ∈ tr ∧
      lowerSearch
        [fun q => if q = "etc/apt/sources.list" then some ("stage1") else none,
         fun _ => some ("base")] "etc/apt/sources.list" = some ("stage1") :=
  for_install_lower_spec envNet sWit
    (fun q => if q = "etc/apt/sources.list" then some ("stage1") else none)
    (fun _ => some ("base")) "etc/apt/sources.list" "stage1"
    (fun _ => rfl) (fun _ _ => rfl) (by simp)

/-- The argv of the first overlay mount `configure` issues (stage 1: lower
layer `self.source`, target the freshly allocated `configured` dir). -/
def firstOverlayArgv (env : Env) (s : AptState) : List String :=
  overlayArgv s.source (stage1Upper env s)
    (env.freshDir (s.tdirs.length + 1) ++ "/work") (cfgdDir env s)

/-- C8: `setup_overlay(source, target)` allocates one new tracked scratch
directory, creates exactly its `work` and `upper` subdirectories, issues the
overlay mount at `target` with `lowerdir=source`, `upperdir=` the new upper
layer and `workdir=` the new work layer, records `target` in the mounts
list, and returns the upper layer path; when the mount command fails, the
error propagates (no mount is recorded), and in particular a failing first
overlay mount aborts `configure` with an error. -/
theorem setup_overlay_contract (env : Env) (source target : String)
    (s : AptState) (tr : List Event) :
    (setup_overlay env source target s tr =
      (if env.runnerOk (overlayArgv source
            (env.freshDir s.tdirs.length ++ "/upper")
            (env.freshDir s.tdirs.length ++ "/work") target) then
        Outcome.ok (env.freshDir s.tdirs.length ++ "/upper")
          { s with
              tdirs := s.tdirs ++ [env.freshDir s.tdirs.length],
              mounts := s.mounts ++ [target] }
          (tr ++ [.mkdtemp (env.freshDir s.tdirs.length),
            .mkdir (env.freshDir s.tdirs.length ++ "/work"),
            .mkdir (env.freshDir s.tdirs.length ++ "/upper"),
            .runCmd (overlayArgv source
              (env.freshDir s.tdirs.length ++ "/upper")
              (env.freshDir s.tdirs.length ++ "/work") target)])
      else
        Outcome.err (.cmdFailed (overlayArgv source
            (env.freshDir s.tdirs.length ++ "/upper")
            (env.freshDir s.tdirs.length ++ "/work") target))
          { s with tdirs := s.tdirs ++ [env.freshDir s.tdirs.length] }
          (tr ++ [.mkdtemp (env.freshDir s.tdirs.length),
            .mkdir (env.freshDir s.tdirs.length ++ "/work"),
            .mkdir (env.freshDir s.tdirs.length ++ "/upper"),
            .runCmd (overlayArgv source
              (env.freshDir s.tdirs.length ++ "/upper")
              (env.freshDir s.tdirs.length ++ "/work") target)]))) ∧
    (if env.runnerOk (firstOverlayArgv env s) then True
     else ∃ e s' tr', configure env s tr = .err e s' tr') := by
  constructor
  · cases h : env.runnerOk (overlayArgv source
        (env.freshDir s.tdirs.length ++ "/upper")
        (env.freshDir s.tdirs.length ++ "/work") target) <;>
      (simp [overlayArgv, mountArgv] at h
       simp [setup_overlay, tdir, mount, overlayArgv, mountArgv,
         Outcome.bind, h])
  · cases h : env.runnerOk (firstOverlayArgv env s)
    · simp only [h, Bool.false_eq_true, if_false]
      simp [firstOverlayArgv, overlayArgv, stage1Upper, cfgdDir,
        mountArgv] at h
      simp [configure, setup_overlay, tdir, mount, mountArgv, overlayArgv,
        Outcome.bind, h]
    · simp [h]

/-- C9: the dry-run variant's `deconfigure(context, target)` is a no-op for
every context and target: it returns immediately with the session state and
the trace exactly as they were — no mounts, temp dirs or `configured`
change, no filesystem events, no external invocations. -/
theorem dry_run_deconfigure_noop (env : Env) (context target : String)
    (s : AptState) (tr : List Event) :
    dryRun_deconfigure env context target s tr = .ok () s tr := rfl

/-- C10: `unmount` leaves the session state — in particular the tracked
mounts list — untouched, whether it succeeds or fails; consequently, after a
successful `configure`, the cdrom mountpoint inside the returned install
root is still in the mounts list when `deconfigure` runs, so after
`deconfigure` has explicitly unmounted it and removed its directory, the
reverse-order teardown loop passes it to the external unmount operation a
second time. -/
theorem cdrom_unmounted_twice (env menv : Env) (m : String) (s0 : AptState)
    (tr0 : List Event) (s : AptState)
    (hrun : ∀ a, env.runnerOk a = true)
    (hcur : ∀ a c, env.curtinOk a c = true) :
    (unmount menv m s0 tr0).state = s0 ∧
    ∃ rest,
      configure env s [] =
        .ok (forInstallDir env s) (configureFinal env s)
          (configureEvents env s) ∧
      forInstallDir env s ++ "/cdrom" ∈ (configureFinal env s).mounts ∧
      deconfigure env (forInstallDir env s) (configureFinal env s) [] =
        .ok () (configureFinal env s)
          (umountEvent (forInstallDir env s ++ "/cdrom") ::
            Event.rmdir (forInstallDir env s ++ "/cdrom") :: rest) ∧
      umountEvent (forInstallDir env s ++ "/cdrom") ∈ rest := by
  constructor
  · unfold unmount runCmd
    cases h : menv.runnerOk ["umount", m] <;> simp [h, Outcome.state]
  · refine ⟨restoreEvents (forInstallDir env s)
        (configuredStr (configureFinal env s)) (restoreList env)
      ++ (if env.hasNetwork then [aptUpdateEvent (forInstallDir env s)]
          else [])
      ++ (configureFinal env s).mounts.reverse.map umountEvent
      ++ (configureFinal env s).tdirs.map Event.rmtree
      ++ (if env.hasNetwork then [aptUpdateEvent (forInstallDir env s)]
          else []), ?_, ?_, ?_, ?_⟩
    · have h := configure_ok env s [] hrun hcur
      simpa using h
    · simp [configureFinal]
    · have h := deconfigure_ok env (forInstallDir env s)
        (configureFinal env s) [] hrun hcur
      rw [h]
      simp [deconfigureEvents]
    · have hm : forInstallDir env s ++ "/cdrom" ∈
          (configureFinal env s).mounts.reverse := by
        simp [configureFinal]
      refine List.mem_append_left _ (List.mem_append_left _
        (List.mem_append_right _ ?_))
      exact List.mem_map_of_mem umountEvent hm

/-- Witness for C10 at the concrete all-success environment. -/
theorem cdrom_unmounted_twice_witness :
    (unmount envNet ("/mnt/x") sWit []).state = sWit ∧
    ∃ rest,
      configure envNet sWit [] =
        .ok (forInstallDir envNet sWit) (configureFinal envNet sWit)
          (configureEvents envNet sWit) ∧
      forInstallDir envNet sWit ++ "/cdrom" ∈
        (configureFinal envNet sWit).mounts ∧
      deconfigure envNet (forInstallDir envNet sWit)
          (configureFinal envNet sWit) [] =
        .ok () (configureFinal envNet sWit)
          (umountEvent (forInstallDir envNet sWit ++ "/cdrom") ::
            Event.rmdir (forInstallDir envNet sWit ++ "/cdrom") :: rest) ∧
      umountEvent (forInstallDir envNet sWit ++ "/cdrom") ∈ rest :=
  cdrom_unmounted_twice envNet envNet ("/mnt/x") sWit [] sWit (fun _ => rfl)
    (fun _ _ => rfl)
